import Mathlib

/-!
Verification of the display7 seven-segment display driver
(`src/display7.c`) against its natural-language specification.

The driver state and the three externally reachable operations
(`display7_setled`, `digit_store`, `digit_show`) are embedded as pure
Lean functions; the result code of the underlying bulk GPIO write
(`gpiod_set_array_value`) is passed in as an explicit parameter `hw`
(0 on success, a negative errno on failure), and the observable effects
(the recorded digit, the sequence of bitmasks driven to the pins, the
number of `dev_err` log messages) are tracked in an explicit state.
The probe / remove lifecycle is embedded over a record of which
resources are currently claimed, with the oracle results of the host
allocation calls passed in explicitly.
-/

namespace Display7

/-- Segment codes for digits 0 through F, from `segment_table` in
src/display7.c lines 91-108.  Bit order: bit0=A .. bit6=G, bit7=DP. -/
def segment_table : List Nat :=
  [0x3F, 0x06, 0x5B, 0x4F, 0x66, 0x6D, 0x7D, 0x07,
   0x7F, 0x6F, 0x77, 0x7C, 0x39, 0x5E, 0x79, 0x71]

/-- Observable state of one driver instance:
`digit` is the `char digit` field of `struct display7_data_st`;
`applied` is the ordered list of bitmask values passed to
`gpiod_set_array_value` so far; `errs` counts the `dev_err` messages
emitted by `display7_setled`. -/
structure State where
  digit : Char
  applied : List Nat
  errs : Nat
deriving DecidableEq

/-- State right after a successful probe: `devm_kzalloc` zeroes the
data struct, so the recorded digit is the NUL character, and
`gpiod_get_array(..., GPIOD_OUT_LOW)` has driven no bitmask yet. -/
def initState : State := { digit := Char.ofNat 0, applied := [], errs := 0 }

/-- The kernel `IS_ERR` check as applied in this driver to an `int`
result code (0 on success, `-errno` with `errno` in [1,4095] on
failure): true exactly on the error range. -/
def is_err_int (r : Int) : Bool := decide (-4095 ≤ r ∧ r < 0)

/-- `display7_setled` (src/display7.c lines 110-128).  `hw` is the
result code returned by `gpiod_set_array_value` for this bulk write.
Out-of-range digits are silently ignored ("Sanity check"); a GPIO
error is only logged via `dev_err` — the function is `void`, so
nothing is reported to the caller either way. -/
def display7_setled (hw : Int) (st : State) (digit : Nat) : State :=
  if digit > 15 then st
  else
    let digit_segments := segment_table.getD digit 0
    let st1 : State := { st with applied := st.applied ++ [digit_segments] }
    if is_err_int hw then { st1 with errs := st1.errs + 1 } else st1

/-- The `switch (digit)` statement of `digit_store`
(src/display7.c lines 145-164): returns the character that will be
recorded in `display7_data->digit` and the digit value passed to
`display7_setled`.  Recognized characters are recorded as written;
anything else falls to the `default` arm, which coerces to `'8'` and
drives digit 8. -/
def digit_switch (c : Char) : Char × Nat :=
  if c = '0' then (c, 0)
  else if c = '1' then (c, 1)
  else if c = '2' then (c, 2)
  else if c = '3' then (c, 3)
  else if c = '4' then (c, 4)
  else if c = '5' then (c, 5)
  else if c = '6' then (c, 6)
  else if c = '7' then (c, 7)
  else if c = '8' then (c, 8)
  else if c = '9' then (c, 9)
  else if c = 'a' then (c, 10)
  else if c = 'b' then (c, 11)
  else if c = 'c' then (c, 12)
  else if c = 'd' then (c, 13)
  else if c = 'e' then (c, 14)
  else if c = 'f' then (c, 15)
  else ('8', 8)

/-- The sixteen characters recognized by the `switch` in `digit_store`
(every other character takes the `default` arm): the decimal digit
characters followed by the lowercase hex letters. -/
def accepted_chars : List Char :=
  (List.range 10).map (fun n => Char.ofNat (48 + n)) ++
    (List.range 6).map (fun n => Char.ofNat (97 + n))

/-- `digit_store` (src/display7.c lines 139-168), the sysfs write
callback.  It reads `*buf` (the first character of the payload),
dispatches through the switch, unconditionally stores the resulting
character in `display7_data->digit`, and returns `size` (the full
payload length) as the `ssize_t` result. -/
def digit_store (hw : Int) (st : State) (buf : List Char) : State × Int :=
  let digit := buf.headD (Char.ofNat 0)
  let p := digit_switch digit
  let st1 := display7_setled hw st p.2
  ({ st1 with digit := p.1 }, (buf.length : Int))

/-- `digit_show` (src/display7.c lines 131-136), the sysfs read
callback: it places the recorded digit in the output buffer and
returns 0 as the `ssize_t` byte count.  It takes no hardware input,
performs no state change and has no failure path. -/
def digit_show (st : State) : Char × Int := (st.digit, 0)

/-- Which host resources a driver instance currently holds. -/
structure Resources where
  gpios_claimed : Bool
  chrdev_allocd : Bool
  class_created : Bool
  device_created : Bool
  file_created : Bool
deriving DecidableEq

/-- No resource held. -/
def noResources : Resources :=
  { gpios_claimed := false, chrdev_allocd := false, class_created := false,
    device_created := false, file_created := false }

/-- Oracle results of the host allocation calls made by
`display7_probe`: success/failure of `devm_kzalloc`, and the `int`
result codes (0 or pointer-success, negative errno on failure) of
`gpiod_get_array`, `alloc_chrdev_region`, `class_create`,
`device_create` and `device_create_file`. -/
structure ProbeEnv where
  kzalloc_ok : Bool
  gpiod_get : Int
  alloc_chrdev : Int
  class_create : Int
  device_create : Int
  create_file : Int
deriving DecidableEq

/-- `display7_probe` (src/display7.c lines 174-259): acquires the GPIO
array, then allocates a chrdev region, creates the class, the device
and the `digit` attribute file; on a failure it runs the goto unwind
chain, which releases the chrdev/class/device resources acquired after
the failing step but never calls `gpiod_put_array`.  Returns the
resources still held together with the `int` result. -/
def display7_probe (env : ProbeEnv) : Resources × Int :=
  if !env.kzalloc_ok then (noResources, -12)
  else if is_err_int env.gpiod_get then (noResources, env.gpiod_get)
  else
    let s1 := { noResources with gpios_claimed := true }
    if env.alloc_chrdev ≠ 0 then (s1, env.alloc_chrdev)
    else
      let s2 := { s1 with chrdev_allocd := true }
      if is_err_int env.class_create then
        ({ s2 with chrdev_allocd := false }, env.class_create)
      else
        let s3 := { s2 with class_created := true }
        if is_err_int env.device_create then
          let t := { s3 with class_created := false }
          ({ t with chrdev_allocd := false }, env.device_create)
        else
          let s4 := { s3 with device_created := true }
          if is_err_int env.create_file then
            let s5 := { s4 with device_created := false }
            let s6 := { s5 with class_created := false }
            ({ s6 with chrdev_allocd := false }, env.create_file)
          else ({ s4 with file_created := true }, 0)

/-- The release calls a detach can make, in the driver's vocabulary. -/
inductive Ev where
  | remove_file
  | destroy_device
  | destroy_class
  | unregister_chrdev
  | put_gpios
deriving DecidableEq

/-- `display7_remove` (src/display7.c lines 261-270): releases every
resource in source order and returns the final resource state together
with the ordered trace of release calls. -/
def display7_remove (s : Resources) : Resources × List Ev :=
  let s1 := { s with file_created := false }
  let s2 := { s1 with device_created := false }
  let s3 := { s2 with class_created := false }
  let s4 := { s3 with chrdev_allocd := false }
  let s5 := { s4 with gpios_claimed := false }
  (s5, [Ev.remove_file, Ev.destroy_device, Ev.destroy_class,
        Ev.unregister_chrdev, Ev.put_gpios])

-- Helper lemmas ------------------------------------------------------

/-- The recorded digit is never touched by `display7_setled`. -/
theorem setled_digit (hw : Int) (st : State) (d : Nat) :
    (display7_setled hw st d).digit = st.digit := by
  unfold display7_setled
  split
  · rfl
  · split <;> rfl

/-- For an in-range digit, `display7_setled` drives exactly the table
bitmask for that digit, appended to the history. -/
theorem setled_applied_le (hw : Int) (st : State) (d : Nat) (h : d ≤ 15) :
    (display7_setled hw st d).applied =
      st.applied ++ [segment_table.getD d 0] := by
  unfold display7_setled
  rw [if_neg (by omega)]
  split <;> rfl

/-- For an in-range digit and a failing GPIO result, exactly one error
is logged. -/
theorem setled_errs_fault (hw : Int) (st : State) (d : Nat) (h : d ≤ 15)
    (he : is_err_int hw = true) :
    (display7_setled hw st d).errs = st.errs + 1 := by
  unfold display7_setled
  rw [if_neg (by omega), if_pos he]

/-- An out-of-range digit leaves the state entirely unchanged. -/
theorem setled_out_of_range (hw : Int) (st : State) (d : Nat)
    (h : 15 < d) : display7_setled hw st d = st := by
  unfold display7_setled
  rw [if_pos h]

/-- A recognized character passes through the switch unchanged, with
an in-range digit value. -/
theorem digit_switch_mem (c : Char) (h : c ∈ accepted_chars) :
    (digit_switch c).1 = c ∧ (digit_switch c).2 ≤ 15 := by
  have hall : ∀ x ∈ accepted_chars,
      (digit_switch x).1 = x ∧ (digit_switch x).2 ≤ 15 := by decide
  exact hall c h

/-- An unrecognized character takes the default arm. -/
theorem digit_switch_not_mem (c : Char) (h : c ∉ accepted_chars) :
    digit_switch c = ('8', 8) := by
  have hne : ∀ x ∈ accepted_chars, c ≠ x := fun x hx e => h (e ▸ hx)
  have h0 := hne '0' (by decide)
  have h1 := hne '1' (by decide)
  have h2 := hne '2' (by decide)
  have h3 := hne '3' (by decide)
  have h4 := hne '4' (by decide)
  have h5 := hne '5' (by decide)
  have h6 := hne '6' (by decide)
  have h7 := hne '7' (by decide)
  have h8 := hne '8' (by decide)
  have h9 := hne '9' (by decide)
  have ha := hne 'a' (by decide)
  have hb := hne 'b' (by decide)
  have hc := hne 'c' (by decide)
  have hd := hne 'd' (by decide)
  have he := hne 'e' (by decide)
  have hf := hne 'f' (by decide)
  simp [digit_switch, h0, h1, h2, h3, h4, h5, h6, h7, h8, h9, ha, hb, hc,
    hd, he, hf]

/-- The switch always yields an in-range digit value. -/
theorem digit_switch_le (c : Char) : (digit_switch c).2 ≤ 15 := by
  by_cases h : c ∈ accepted_chars
  · exact (digit_switch_mem c h).2
  · rw [digit_switch_not_mem c h]
    decide

-- Claim theorems -----------------------------------------------------

/-- C1, counterexample: with a failing GPIO result (-5, so `is_err_int`
holds and one `dev_err` is logged), writing "3" from the initial state
still returns 1 (the full payload size, i.e. success — no error is
propagated to the caller) and still updates the recorded digit from NUL
to '3'.  This refutes the claim that a failed pin apply propagates the
error and never updates the stored digit. -/
theorem C1_counterexample :
    is_err_int (-5) = true ∧
    (digit_store (-5) initState ['3']).2 = 1 ∧
    (digit_store (-5) initState ['3']).1.digit = '3' ∧
    (digit_store (-5) initState ['3']).1.errs = 1 ∧
    initState.digit ≠ '3' := by decide

/-- C1, amended: when the bulk GPIO write fails, `digit_store` does not
propagate the error: it logs exactly one error message, still returns
the full payload length as consumed, and still updates the recorded
digit to the character selected by the switch (the written character,
or '8' for unrecognized input). -/
theorem C1_fault_still_records (hw : Int) (st : State) (c : Char)
    (rest : List Char) (he : is_err_int hw = true) :
    (digit_store hw st (c :: rest)).2 = ((c :: rest).length : Int) ∧
    (digit_store hw st (c :: rest)).1.errs = st.errs + 1 ∧
    (digit_store hw st (c :: rest)).1.digit = (digit_switch c).1 := by
  refine ⟨rfl, ?_, rfl⟩
  exact setled_errs_fault hw st (digit_switch c).2 (digit_switch_le c) he

/-- C1, witness for the amended theorem at hw = -5, payload "3". -/
theorem C1_fault_witness :
    is_err_int (-5) = true ∧
    ((digit_store (-5) initState ('3' :: [])).2 =
        ((('3' :: []) : List Char).length : Int) ∧
      (digit_store (-5) initState ('3' :: [])).1.errs = initState.errs + 1 ∧
      (digit_store (-5) initState ('3' :: [])).1.digit =
        (digit_switch '3').1) :=
  ⟨by decide, C1_fault_still_records (-5) initState '3' [] (by decide)⟩

/-- C2: the Segment Table lookup returns exactly the sixteen constants
0x3F, 0x06, 0x5B, 0x4F, 0x66, 0x6D, 0x7D, 0x07, 0x7F, 0x6F, 0x77,
0x7C, 0x39, 0x5E, 0x79, 0x71 for digits 0 through 15, the table has
exactly one entry per digit, and no digit outside [0,15] is ever looked
up: `display7_setled` returns without consulting the table (state fully
unchanged) for every digit above 15. -/
theorem C2_segment_table_exact :
    (segment_table.getD 0 0 = 0x3F ∧ segment_table.getD 1 0 = 0x06 ∧
     segment_table.getD 2 0 = 0x5B ∧ segment_table.getD 3 0 = 0x4F ∧
     segment_table.getD 4 0 = 0x66 ∧ segment_table.getD 5 0 = 0x6D ∧
     segment_table.getD 6 0 = 0x7D ∧ segment_table.getD 7 0 = 0x07 ∧
     segment_table.getD 8 0 = 0x7F ∧ segment_table.getD 9 0 = 0x6F ∧
     segment_table.getD 10 0 = 0x77 ∧ segment_table.getD 11 0 = 0x7C ∧
     segment_table.getD 12 0 = 0x39 ∧ segment_table.getD 13 0 = 0x5E ∧
     segment_table.getD 14 0 = 0x79 ∧ segment_table.getD 15 0 = 0x71) ∧
    segment_table.length = 16 ∧
    ∀ hw st d, 15 < d → display7_setled hw st d = st := by
  refine ⟨by decide, by decide, ?_⟩
  intro hw st d h
  exact setled_out_of_range hw st d h

/-- C2, witness: the out-of-range part applied at digit 16. -/
theorem C2_witness : display7_setled 0 initState 16 = initState :=
  C2_segment_table_exact.2.2 0 initState 16 (by decide)

/-- C3, counterexample: showing digit 16 directly does leave the pins
untouched and the recorded digit unchanged, but no OutOfRange error is
reported to the caller: the call returns with the state completely
unchanged — in particular no error is logged (`errs` stays 0) and the
C function is `void`, so there is no error return at all. -/
theorem C3_counterexample :
    display7_setled 0 { digit := '5', applied := [0x6D], errs := 0 } 16 =
      { digit := '5', applied := [0x6D], errs := 0 } ∧
    (display7_setled 0 { digit := '5', applied := [0x6D], errs := 0 } 16).errs
      = 0 := by decide

/-- C3, amended: showing a digit outside [0,15] is silently ignored:
the hardware pins are not touched and the recorded digit reflects the
previous value, but no OutOfRange error is reported to the caller —
the routine simply returns with the instance state unchanged. -/
theorem C3_out_of_range_silent (hw : Int) (st : State) (d : Nat)
    (h : 15 < d) :
    display7_setled hw st d = st :=
  setled_out_of_range hw st d h

/-- C3, witness for the amended theorem at digit 99 with a faulting
hardware result (which is never even consulted). -/
theorem C3_witness : display7_setled (-5) initState 99 = initState :=
  C3_out_of_range_silent (-5) initState 99 (by decide)

/-- C4: round trip — for every character in the accepted alphabet
{0-9, a-f}, a write of that character reports the full payload length
(success) and a subsequent read yields exactly that character,
unchanged. -/
theorem C4_round_trip (hw : Int) (st : State) (c : Char)
    (rest : List Char) (h : c ∈ accepted_chars) :
    (digit_store hw st (c :: rest)).2 = ((c :: rest).length : Int) ∧
    (digit_show (digit_store hw st (c :: rest)).1).1 = c := by
  refine ⟨rfl, ?_⟩
  exact (digit_switch_mem c h).1

/-- C4, witness at character '3'. -/
theorem C4_witness :
    '3' ∈ accepted_chars ∧
    ((digit_store 0 initState ('3' :: [])).2 =
        ((('3' :: []) : List Char).length : Int) ∧
      (digit_show (digit_store 0 initState ('3' :: [])).1).1 = '3') :=
  ⟨by decide, C4_round_trip 0 initState '3' [] (by decide)⟩

/-- C5: for every payload whose first character is outside the
accepted alphabet, the write succeeds reporting the full payload
length (a positive count, so no error is surfaced), the recorded digit
becomes '8', and the bitmask driven to the pins is 0x7F. -/
theorem C5_fallback (hw : Int) (st : State) (c : Char)
    (rest : List Char) (h : c ∉ accepted_chars) :
    (digit_store hw st (c :: rest)).2 = ((c :: rest).length : Int) ∧
    (0 : Int) < (digit_store hw st (c :: rest)).2 ∧
    (digit_store hw st (c :: rest)).1.digit = '8' ∧
    (digit_store hw st (c :: rest)).1.applied = st.applied ++ [0x7F] := by
  have hs := digit_switch_not_mem c h
  refine ⟨rfl, by simp [digit_store], ?_, ?_⟩
  · show (digit_switch c).1 = '8'
    rw [hs]
  · show (display7_setled hw st (digit_switch c).2).applied =
      st.applied ++ [0x7F]
    rw [hs]
    exact setled_applied_le hw st 8 (by decide)

/-- C5, witness at the spec's example character 'z'. -/
theorem C5_witness :
    'z' ∉ accepted_chars ∧
    ((digit_store 0 initState ('z' :: [])).2 =
        ((('z' :: []) : List Char).length : Int) ∧
      (0 : Int) < (digit_store 0 initState ('z' :: [])).2 ∧
      (digit_store 0 initState ('z' :: [])).1.digit = '8' ∧
      (digit_store 0 initState ('z' :: [])).1.applied =
        initState.applied ++ [0x7F]) :=
  ⟨by decide, C5_fallback 0 initState 'z' [] (by decide)⟩

/-- C6: for every payload of length n ≥ 1 the write acts on exactly
the first character (the resulting state is the one produced by writing
the first character alone, whatever the remaining characters are) and
returns the full input length n as the number of bytes consumed. -/
theorem C6_first_char_only (hw : Int) (st : State) (c : Char)
    (rest : List Char) :
    (digit_store hw st (c :: rest)).1 = (digit_store hw st [c]).1 ∧
    (digit_store hw st (c :: rest)).2 = ((c :: rest).length : Int) :=
  ⟨rfl, rfl⟩

/-- C7: the read callback never touches the hardware and never fails —
it is a total function of the recorded state with no hardware input —
and it places the last recorded digit (the NUL character from kzalloc
if nothing was ever written) in the output buffer; but it returns 0 as
the byte count, so the caller is handed an empty read rather than a
single character, contradicting the read contract and the driver's own
usage documentation (`cat` shows the displayed value).  Concretely,
after writing "3" the read callback holds '3' yet reports 0 bytes. -/
theorem C7_read_reports_zero_bytes :
    (∀ st : State, digit_show st = (st.digit, 0)) ∧
    (digit_show initState).1 = Char.ofNat 0 ∧
    (digit_show (digit_store 0 initState ['3']).1).1 = '3' ∧
    (digit_show (digit_store 0 initState ['3']).1).2 = 0 :=
  ⟨fun _ => rfl, rfl, by decide, by decide⟩

/-- C8: if the probe fails after the GPIO array has been acquired
(here: `alloc_chrdev_region` fails with -ENOMEM), the attach returns
the error, but the acquired GPIO pins remain claimed — no probe error
path ever calls `gpiod_put_array`, so attach is not all-or-nothing. -/
theorem C8_probe_leaks_gpios :
    (display7_probe ⟨true, 0, -12, 0, 0, 0⟩).2 = -12 ∧
    (display7_probe ⟨true, 0, -12, 0, 0, 0⟩).1.gpios_claimed = true ∧
    (display7_probe ⟨true, 0, -12, 0, 0, 0⟩).1 =
      { noResources with gpios_claimed := true } := by decide

/-- C9: on detach the control-surface endpoint (attribute file and
device registration) is released strictly before the GPIO pins, and
releasing the pins is the last release step of the trace; afterwards
no resource remains held. -/
theorem C9_remove_order :
    (display7_remove ⟨true, true, true, true, true⟩).2.getLast? =
      some Ev.put_gpios ∧
    (display7_remove ⟨true, true, true, true, true⟩).2.indexOf
        Ev.remove_file <
      (display7_remove ⟨true, true, true, true, true⟩).2.indexOf
        Ev.put_gpios ∧
    (display7_remove ⟨true, true, true, true, true⟩).2.indexOf
        Ev.destroy_device <
      (display7_remove ⟨true, true, true, true, true⟩).2.indexOf
        Ev.put_gpios ∧
    (display7_remove ⟨true, true, true, true, true⟩).2.count
        Ev.put_gpios = 1 ∧
    (display7_remove ⟨true, true, true, true, true⟩).1 = noResources := by
  decide

/-- C10: the character translation is lowercase-only — every write
whose first character is an uppercase hex letter 'A'..'F' takes the
fallback path: the recorded digit becomes '8' and the driven bitmask
is 0x7F (not the digit value 10..15 of the lowercase letter). -/
theorem C10_uppercase_fallback (hw : Int) (st : State) (c : Char)
    (rest : List Char)
    (h : c ∈ (['A', 'B', 'C', 'D', 'E', 'F'] : List Char)) :
    (digit_store hw st (c :: rest)).1.digit = '8' ∧
    (digit_store hw st (c :: rest)).1.applied = st.applied ++ [0x7F] := by
  have hm : c ∉ accepted_chars := by fin_cases h <;> decide
  have hs := digit_switch_not_mem c hm
  constructor
  · show (digit_switch c).1 = '8'
    rw [hs]
  · show (display7_setled hw st (digit_switch c).2).applied =
      st.applied ++ [0x7F]
    rw [hs]
    exact setled_applied_le hw st 8 (by decide)

/-- C10, witness at character 'A'. -/
theorem C10_witness :
    'A' ∈ (['A', 'B', 'C', 'D', 'E', 'F'] : List Char) ∧
    ((digit_store 0 initState ('A' :: [])).1.digit = '8' ∧
      (digit_store 0 initState ('A' :: [])).1.applied =
        initState.applied ++ [0x7F]) :=
  ⟨by decide, C10_uppercase_fallback 0 initState 'A' [] (by decide)⟩

end Display7
